import Mathlib

/-!
Shallow embedding of the Prezzeria patient-dashboard client.

The repository has two React components:
* `PatientUI` (src/client/app/patient/page.tsx): listing/sorting patients,
  searching by id, editing and deleting the found patient;
* `Home` (src/unnamed/part_000): a create-patient form.

Each event handler is embedded as a pure function from the component's
state (and, for handlers that issue an HTTP request, the server's response
to that request) to the list of effects the handler performs, in source
order: state setters, HTTP requests, alerts, console output.  Replaying the
setter events over the state gives the post-handler state.
-/

namespace Prezzeria

/-- A patient record as returned by the backend.  The client treats every
field as opaque display data (JSON values rendered directly), so all
fields are modelled as strings. -/
structure Patient where
  name : String
  city : String
  age : String
  gender : String
  height : String
  weight : String
  bmi : String
  verdict : String
deriving DecidableEq, Repr

/-- The create-form state of the `Home` component (`formData`). -/
structure FormData where
  id : String
  name : String
  gender : String
  city : String
  age : String
  height : String
  weight : String
deriving DecidableEq, Repr

/-- The edit-form state of `PatientUI` (`updateData`). -/
structure UpdateData where
  name : String
  city : String
  age : String
  gender : String
  height : String
  weight : String
deriving DecidableEq, Repr

/-- HTTP method of a request issued through axios. -/
inductive Method where
  | get
  | post
  | put
  | delete
deriving DecidableEq, Repr

/-- Payload attached to a request: nothing, the `/sort` query string, the
create-form body, or the edit-form body. -/
inductive ReqBody where
  | empty
  | sortQuery (sort_by : String) (ord : String)
  | form (f : FormData)
  | update (u : UpdateData)
deriving DecidableEq, Repr

/-- One HTTP request as the client issues it. -/
structure Request where
  method : Method
  url : String
  body : ReqBody
deriving DecidableEq, Repr

/-- The error object axios passes to a catch block; the client only ever
reads `err.response?.data?.detail`, modelled as an optional string (`none`
when any link of that optional chain is missing). -/
structure AxiosError where
  detail : Option String
deriving DecidableEq, Repr

/-- One observable effect of a handler, in source order. -/
inductive Event where
  | setLoading (b : Bool)
  | request (r : Request)
  | setPatients (l : List Patient)
  | setSinglePatient (p : Option Patient)
  | setError (m : String)
  | setUpdateData (u : UpdateData)
  | setPatientId (v : String)
  | setSortBy (v : String)
  | setOrder (v : String)
  | setFormData (f : FormData)
  | alert (msg : String)
  | confirmPrompt (msg : String)
  | consoleError
  | consoleLog
deriving DecidableEq, Repr

/-- The `useState` state of the `PatientUI` component. -/
structure PatientState where
  patients : List Patient
  loading : Bool
  sortBy : String
  ord : String
  patientId : String
  singlePatient : Option Patient
  error : String
  updateData : UpdateData
deriving DecidableEq, Repr

/-- The `useState` state of the `Home` component. -/
structure HomeState where
  formData : FormData
  loading : Bool
deriving DecidableEq, Repr

/-- Apply one effect to the `PatientUI` state (effects of the other
component, requests, alerts and console output leave it unchanged). -/
def applyPatient (s : PatientState) : Event → PatientState
  | .setLoading b => { s with loading := b }
  | .setPatients l => { s with patients := l }
  | .setSinglePatient p => { s with singlePatient := p }
  | .setError m => { s with error := m }
  | .setUpdateData u => { s with updateData := u }
  | .setPatientId v => { s with patientId := v }
  | .setSortBy v => { s with sortBy := v }
  | .setOrder v => { s with ord := v }
  | _ => s

/-- Replay a handler's effects over the `PatientUI` state. -/
def runPatient (s : PatientState) (evts : List Event) : PatientState :=
  evts.foldl applyPatient s

/-- Apply one effect to the `Home` state. -/
def applyHome (s : HomeState) : Event → HomeState
  | .setLoading b => { s with loading := b }
  | .setFormData f => { s with formData := f }
  | _ => s

/-- Replay a handler's effects over the `Home` state. -/
def runHome (s : HomeState) (evts : List Event) : HomeState :=
  evts.foldl applyHome s

/-- The HTTP requests a handler issues, in order. -/
def requestsOf (evts : List Event) : List Request :=
  evts.filterMap fun e => match e with
    | .request r => some r
    | _ => none

/-- The alert messages a handler shows, in order. -/
def alertsOf (evts : List Event) : List String :=
  evts.filterMap fun e => match e with
    | .alert m => some m
    | _ => none

/-- Whether a handler surfaces anything to the user through an alert or by
setting the on-screen error message. -/
def surfacesError (evts : List Event) : Bool :=
  evts.any fun e => match e with
    | .alert _ => true
    | .setError _ => true
    | _ => false

/-- True at each `request` event only if the tracked loading flag is true
there; the flag starts at the given value and follows `setLoading` events. -/
def loadingAtRequests : Bool → List Event → Bool
  | _, [] => true
  | _, (Event.setLoading b :: rest) => loadingAtRequests b rest
  | b, (Event.request _ :: rest) => b && loadingAtRequests b rest
  | b, (_ :: rest) => loadingAtRequests b rest

def sortUrl : String := "http://127.0.0.1:8000/sort"

def patientUrl (id : String) : String := "http://127.0.0.1:8000/patient/" ++ id

def editUrl (id : String) : String := "http://127.0.0.1:8000/edit/" ++ id

def deleteUrl (id : String) : String := "http://127.0.0.1:8000/delete/" ++ id

def createdUrl : String := "http://127.0.0.1:8000/created"

/-- `fetchSortedPatients` (page.tsx:31-43): set loading, GET /sort with
`sort_by` and `order` params, on success replace `patients` with the
response data, on failure log to the console; finally clear loading. -/
def fetchSortedPatients (s : PatientState)
    (resp : Except AxiosError (List Patient)) : List Event :=
  [.setLoading true,
   .request ⟨.get, sortUrl, .sortQuery s.sortBy s.ord⟩] ++
  (match resp with
   | .ok data => [.setPatients data]
   | .error _ => [.consoleError]) ++
  [.setLoading false]

/-- The edit form filled from a fetched patient (page.tsx:67-74). -/
def updateFromPatient (p : Patient) : UpdateData :=
  ⟨p.name, p.city, p.age, p.gender, p.height, p.weight⟩

/-- The message shown for a failed search (page.tsx:76):
`err.response?.data?.detail || "Patient not found."`; JavaScript `||`
falls through on a missing or empty `detail`. -/
def searchErrorMessage (e : AxiosError) : String :=
  match e.detail with
  | some d => if d = "" then "Patient not found." else d
  | none => "Patient not found."

/-- `handleSearch` (page.tsx:52-80): an empty `patientId` only sets the
error message; otherwise clear error and the displayed patient, set
loading, GET /patient/{id}, on success show the patient and fill the edit
form, on failure set the error message; finally clear loading. -/
def handleSearch (s : PatientState)
    (resp : Except AxiosError Patient) : List Event :=
  if s.patientId = "" then
    [.setError "Enter a valid patient ID."]
  else
    [.setError "", .setSinglePatient none, .setLoading true,
     .request ⟨.get, patientUrl s.patientId, .empty⟩] ++
    (match resp with
     | .ok p => [.setSinglePatient (some p), .setUpdateData (updateFromPatient p)]
     | .error e => [.setError (searchErrorMessage e)]) ++
    [.setLoading false]

/-- `updatePatient` (page.tsx:93-100): PUT /edit/{id} with the current
`updateData` as body, then an alert reporting success or failure. -/
def updatePatient (s : PatientState)
    (resp : Except AxiosError Unit) : List Event :=
  [.request ⟨.put, editUrl s.patientId, .update s.updateData⟩] ++
  (match resp with
   | .ok _ => [.alert "Patient updated successfully!"]
   | .error _ => [.alert "Failed to update patient."])

/-- `deletePatient` (page.tsx:105-116): confirm; when confirmed, DELETE
/delete/{id}, on success alert and clear the displayed patient and the id
field, on failure alert. -/
def deletePatient (s : PatientState) (confirmed : Bool)
    (resp : Except AxiosError Unit) : List Event :=
  .confirmPrompt ("Delete patient " ++ s.patientId ++ "?") ::
  (if confirmed then
    [.request ⟨.delete, deleteUrl s.patientId, .empty⟩] ++
    (match resp with
     | .ok _ => [.alert "Patient deleted successfully!",
                 .setSinglePatient none, .setPatientId ""]
     | .error _ => [.alert "Deletion failed."])
  else [])

/-- The blank create form (part_000:6-14 and 34-42). -/
def emptyFormData : FormData := ⟨"", "", "", "", "", "", ""⟩

/-- `handleSubmit` (part_000:26-48): set loading, POST /created with the
current `formData` as body, on success alert, log and blank the form, on
failure alert and log; then clear loading. -/
def handleSubmit (s : HomeState)
    (resp : Except AxiosError Unit) : List Event :=
  [.setLoading true,
   .request ⟨.post, createdUrl, .form s.formData⟩] ++
  (match resp with
   | .ok _ => [.alert "Patient created successfully!", .consoleLog,
               .setFormData emptyFormData]
   | .error _ => [.alert "Submission failed", .consoleError]) ++
  [.setLoading false]

/-- `handleChange` (part_000:18-24): `[name]: value` over the fixed form
fields; the inputs only ever use the seven known names. -/
def FormData.setField (f : FormData) (nm v : String) : FormData :=
  match nm with
  | "id" => { f with id := v }
  | "name" => { f with name := v }
  | "gender" => { f with gender := v }
  | "city" => { f with city := v }
  | "age" => { f with age := v }
  | "height" => { f with height := v }
  | "weight" => { f with weight := v }
  | _ => f

/-- `handleUpdateChange` (page.tsx:85-88): `[name]: value` over the fixed
edit-form fields. -/
def UpdateData.setField (u : UpdateData) (nm v : String) : UpdateData :=
  match nm with
  | "name" => { u with name := v }
  | "city" => { u with city := v }
  | "age" => { u with age := v }
  | "gender" => { u with gender := v }
  | "height" => { u with height := v }
  | "weight" => { u with weight := v }
  | _ => u

def handleChange (s : HomeState) (nm v : String) : List Event :=
  [.setFormData (s.formData.setField nm v)]

def handleUpdateChange (s : PatientState) (nm v : String) : List Event :=
  [.setUpdateData (s.updateData.setField nm v)]

/-- One user action on the `PatientUI` page.  Actions whose handler issues
a request carry the server's response to it. -/
inductive PAction where
  | applyClick (resp : Except AxiosError (List Patient))
  | sortByChange (v : String) (resp : Except AxiosError (List Patient))
  | orderChange (v : String) (resp : Except AxiosError (List Patient))
  | patientIdChange (v : String)
  | searchClick (resp : Except AxiosError Patient)
  | updateFieldChange (nm v : String)
  | updateClick (resp : Except AxiosError Unit)
  | deleteClick (confirmed : Bool) (resp : Except AxiosError Unit)

/-- Effects of one `PatientUI` user action.  Changing a sort select sets
the state and the `useEffect` on `[sortBy, order]` (page.tsx:45-47)
re-runs `fetchSortedPatients` with the new value. -/
def dispatchPatient (s : PatientState) : PAction → List Event
  | .applyClick resp => fetchSortedPatients s resp
  | .sortByChange v resp =>
      .setSortBy v :: fetchSortedPatients { s with sortBy := v } resp
  | .orderChange v resp =>
      .setOrder v :: fetchSortedPatients { s with ord := v } resp
  | .patientIdChange v => [.setPatientId v]
  | .searchClick resp => handleSearch s resp
  | .updateFieldChange nm v => handleUpdateChange s nm v
  | .updateClick resp => updatePatient s resp
  | .deleteClick c resp => deletePatient s c resp

/-- One user action on the `Home` page. -/
inductive HAction where
  | fieldChange (nm v : String)
  | submit (resp : Except AxiosError Unit)

/-- Effects of one `Home` user action. -/
def dispatchHome (s : HomeState) : HAction → List Event
  | .fieldChange nm v => handleChange s nm v
  | .submit resp => handleSubmit s resp

/-- The `sort_by` select options (page.tsx:259-261). -/
def sortByOptions : List String := ["height", "weight", "bmi"]

/-- The `order` select options (page.tsx:269-270). -/
def orderOptions : List String := ["asc", "desc"]

/-- What the single-patient card displays (page.tsx:151-165). -/
structure SingleView where
  name : String
  city : String
  age : String
  gender : String
  height : String
  weight : String
  bmi : String
  verdict : String
deriving DecidableEq, Repr

/-- What one listed patient card displays (page.tsx:289-293). -/
structure CardView where
  name : String
  height : String
  weight : String
  bmi : String
  verdict : String
deriving DecidableEq, Repr

/-- The single-patient card renders the response fields directly. -/
def renderSingle (p : Patient) : SingleView :=
  ⟨p.name, p.city, p.age, p.gender, p.height, p.weight, p.bmi, p.verdict⟩

/-- A listed card renders the response fields directly. -/
def renderCard (p : Patient) : CardView :=
  ⟨p.name, p.height, p.weight, p.bmi, p.verdict⟩

/-- The single-patient section shows nothing when `singlePatient` is null
(page.tsx:149). -/
def renderSingleView (s : PatientState) : Option SingleView :=
  s.singlePatient.map renderSingle

/-- The list section shows the cards unless loading (page.tsx:283-295). -/
def renderPatients (s : PatientState) : List CardView :=
  if s.loading then [] else s.patients.map renderCard

/-- Initial `PatientUI` state (page.tsx:8-26). -/
def initialPatientState : PatientState :=
  ⟨[], false, "height", "asc", "", none, "", ⟨"", "", "", "", "", ""⟩⟩

/-- Initial `Home` state (part_000:6-16). -/
def initialHomeState : HomeState := ⟨emptyFormData, false⟩

/-- A sample server record used to instantiate universally quantified
theorems at a concrete input. -/
def samplePatient : Patient :=
  ⟨"Ann", "Pune", "30", "female", "1.7", "60", "20.76", "Normal"⟩

/-- A concrete `PatientUI` state with a patient id typed into the search
box, used to instantiate universally quantified theorems. -/
def sampleSearchState : PatientState :=
  { initialPatientState with patientId := "P001" }

/-- A request is one of the five documented endpoint shapes. -/
def isKnownEndpoint (r : Request) : Prop :=
  (∃ k o, r = ⟨.get, sortUrl, .sortQuery k o⟩) ∨
  (∃ i, r = ⟨.get, patientUrl i, .empty⟩) ∨
  (∃ i u, r = ⟨.put, editUrl i, .update u⟩) ∨
  (∃ i, r = ⟨.delete, deleteUrl i, .empty⟩) ∨
  (∃ f, r = ⟨.post, createdUrl, .form f⟩)

/-! ### Helper lemmas about the requests each handler issues -/

lemma requestsOf_setSortBy_cons (v : String) (l : List Event) :
    requestsOf (.setSortBy v :: l) = requestsOf l := rfl

lemma requestsOf_setOrder_cons (v : String) (l : List Event) :
    requestsOf (.setOrder v :: l) = requestsOf l := rfl

lemma requestsOf_fetch (s : PatientState) (resp : Except AxiosError (List Patient)) :
    requestsOf (fetchSortedPatients s resp) =
      [⟨.get, sortUrl, .sortQuery s.sortBy s.ord⟩] := by
  cases resp <;> rfl

lemma requestsOf_search (s : PatientState) (resp : Except AxiosError Patient) :
    requestsOf (handleSearch s resp) =
      if s.patientId = "" then [] else [⟨.get, patientUrl s.patientId, .empty⟩] := by
  unfold handleSearch
  split
  · rfl
  · cases resp <;> rfl

lemma requestsOf_update (s : PatientState) (resp : Except AxiosError Unit) :
    requestsOf (updatePatient s resp) =
      [⟨.put, editUrl s.patientId, .update s.updateData⟩] := by
  cases resp <;> rfl

lemma requestsOf_delete (s : PatientState) (c : Bool) (resp : Except AxiosError Unit) :
    requestsOf (deletePatient s c resp) =
      if c then [⟨.delete, deleteUrl s.patientId, .empty⟩] else [] := by
  cases c <;> cases resp <;> rfl

lemma requestsOf_submit (s : HomeState) (resp : Except AxiosError Unit) :
    requestsOf (handleSubmit s resp) =
      [⟨.post, createdUrl, .form s.formData⟩] := by
  cases resp <;> rfl

lemma mem_known_patient (s : PatientState) (a : PAction) (r : Request)
    (h : r ∈ requestsOf (dispatchPatient s a)) : isKnownEndpoint r := by
  cases a with
  | applyClick resp =>
      rw [dispatchPatient, requestsOf_fetch] at h
      rw [List.mem_singleton.mp h]
      exact Or.inl ⟨_, _, rfl⟩
  | sortByChange v resp =>
      rw [dispatchPatient, requestsOf_setSortBy_cons, requestsOf_fetch] at h
      rw [List.mem_singleton.mp h]
      exact Or.inl ⟨_, _, rfl⟩
  | orderChange v resp =>
      rw [dispatchPatient, requestsOf_setOrder_cons, requestsOf_fetch] at h
      rw [List.mem_singleton.mp h]
      exact Or.inl ⟨_, _, rfl⟩
  | patientIdChange v => simp [dispatchPatient, requestsOf] at h
  | searchClick resp =>
      rw [dispatchPatient, requestsOf_search] at h
      by_cases hid : s.patientId = ""
      · simp [hid] at h
      · rw [if_neg hid] at h
        rw [List.mem_singleton.mp h]
        exact Or.inr (Or.inl ⟨_, rfl⟩)
  | updateFieldChange nm v => simp [dispatchPatient, handleUpdateChange, requestsOf] at h
  | updateClick resp =>
      rw [dispatchPatient, requestsOf_update] at h
      rw [List.mem_singleton.mp h]
      exact Or.inr (Or.inr (Or.inl ⟨_, _, rfl⟩))
  | deleteClick c resp =>
      rw [dispatchPatient, requestsOf_delete] at h
      cases c with
      | false => simp at h
      | true =>
          rw [if_pos rfl] at h
          rw [List.mem_singleton.mp h]
          exact Or.inr (Or.inr (Or.inr (Or.inl ⟨_, rfl⟩)))

lemma mem_known_home (s : HomeState) (a : HAction) (r : Request)
    (h : r ∈ requestsOf (dispatchHome s a)) : isKnownEndpoint r := by
  cases a with
  | fieldChange nm v => simp [dispatchHome, handleChange, requestsOf] at h
  | submit resp =>
      rw [dispatchHome, requestsOf_submit] at h
      rw [List.mem_singleton.mp h]
      exact Or.inr (Or.inr (Or.inr (Or.inr ⟨_, rfl⟩)))

/-- C1: every request the client can issue targets one of exactly five
endpoints with the stated method: `fetchSortedPatients` issues GET /sort
with `sort_by` and `order` query parameters, `handleSearch` issues
GET /patient/{id}, `updatePatient` issues PUT /edit/{id}, `deletePatient`
issues DELETE /delete/{id}, `handleSubmit` issues POST /created, and no
user action issues any request outside these five shapes. -/
theorem fiveEndpointsOnly :
    (∀ s resp, requestsOf (fetchSortedPatients s resp) =
      [⟨.get, sortUrl, .sortQuery s.sortBy s.ord⟩]) ∧
    (∀ s resp, s.patientId ≠ "" → requestsOf (handleSearch s resp) =
      [⟨.get, patientUrl s.patientId, .empty⟩]) ∧
    (∀ s resp, requestsOf (updatePatient s resp) =
      [⟨.put, editUrl s.patientId, .update s.updateData⟩]) ∧
    (∀ s resp, requestsOf (deletePatient s true resp) =
      [⟨.delete, deleteUrl s.patientId, .empty⟩]) ∧
    (∀ s resp, requestsOf (handleSubmit s resp) =
      [⟨.post, createdUrl, .form s.formData⟩]) ∧
    (∀ s a r, r ∈ requestsOf (dispatchPatient s a) → isKnownEndpoint r) ∧
    (∀ s a r, r ∈ requestsOf (dispatchHome s a) → isKnownEndpoint r) := by
  refine ⟨requestsOf_fetch, ?_, requestsOf_update, ?_, requestsOf_submit,
    mem_known_patient, mem_known_home⟩
  · intro s resp h
    rw [requestsOf_search, if_neg h]
  · intro s resp
    rw [requestsOf_delete, if_pos rfl]

/-- Witness for C1 at concrete inputs. -/
theorem fiveEndpointsOnly_witness :
    requestsOf (handleSearch sampleSearchState (.ok samplePatient)) =
      [⟨.get, patientUrl "P001", .empty⟩] ∧
    isKnownEndpoint ⟨.get, sortUrl, .sortQuery "height" "asc"⟩ :=
  ⟨fiveEndpointsOnly.2.1 sampleSearchState (.ok samplePatient) (by decide),
   fiveEndpointsOnly.2.2.2.2.2.1 initialPatientState (.applyClick (.ok []))
     ⟨.get, sortUrl, .sortQuery "height" "asc"⟩ (by decide)⟩

/-- C7: every single user action on either page (a button click, a select
change, a form-field change, or a form submission) issues at most one
HTTP request. -/
theorem atMostOneRequestPerAction :
    (∀ s a, (requestsOf (dispatchPatient s a)).length ≤ 1) ∧
    (∀ s a, (requestsOf (dispatchHome s a)).length ≤ 1) := by
  constructor
  · intro s a
    cases a with
    | applyClick resp => rw [dispatchPatient, requestsOf_fetch]; exact Nat.le_refl 1
    | sortByChange v resp =>
        rw [dispatchPatient, requestsOf_setSortBy_cons, requestsOf_fetch]
        exact Nat.le_refl 1
    | orderChange v resp =>
        rw [dispatchPatient, requestsOf_setOrder_cons, requestsOf_fetch]
        exact Nat.le_refl 1
    | patientIdChange v => simp [dispatchPatient, requestsOf]
    | searchClick resp =>
        rw [dispatchPatient, requestsOf_search]
        split <;> simp
    | updateFieldChange nm v => simp [dispatchPatient, handleUpdateChange, requestsOf]
    | updateClick resp => rw [dispatchPatient, requestsOf_update]; exact Nat.le_refl 1
    | deleteClick c resp =>
        rw [dispatchPatient, requestsOf_delete]
        split <;> simp
  · intro s a
    cases a with
    | fieldChange nm v => simp [dispatchHome, handleChange, requestsOf]
    | submit resp => rw [dispatchHome, requestsOf_submit]; exact Nat.le_refl 1

/-- C2 counterexample: the sorting operation's failure path is silent to
the user.  When GET /sort fails, `fetchSortedPatients` only calls
`console.error`: it shows no alert and sets no on-screen message, refuting
the claim that no operation's error path is silent. -/
theorem sortFailureSilent_cex :
    surfacesError (fetchSortedPatients initialPatientState (.error ⟨none⟩)) = false ∧
    alertsOf (fetchSortedPatients initialPatientState (.error ⟨none⟩)) = [] := by
  exact ⟨rfl, rfl⟩

/-- C2 amended: search, update, delete (when confirmed) and create surface
an HTTP failure to the user via an alert or the on-screen error message,
but the sorting operation's failure path surfaces nothing (it only logs to
the console). -/
theorem errorSurfacing :
    (∀ s e, surfacesError (handleSearch s (.error e)) = true) ∧
    (∀ s e, surfacesError (updatePatient s (.error e)) = true) ∧
    (∀ s e, surfacesError (deletePatient s true (.error e)) = true) ∧
    (∀ s e, surfacesError (handleSubmit s (.error e)) = true) ∧
    (∀ s e, surfacesError (fetchSortedPatients s (.error e)) = false) := by
  refine ⟨?_, fun s e => rfl, fun s e => rfl, fun s e => rfl, fun s e => rfl⟩
  intro s e
  unfold handleSearch
  split <;> rfl

/-- C4: the mutating handlers forward their form state unchanged: the PUT
body sent by `updatePatient` is exactly the current `updateData` record and
the POST body sent by `handleSubmit` is exactly the current `formData`
record, as a whole (so field for field, with nothing added, removed or
transformed). -/
theorem mutationBodiesUnchanged :
    (∀ s resp, requestsOf (updatePatient s resp) =
      [⟨.put, editUrl s.patientId, .update s.updateData⟩]) ∧
    (∀ s resp, requestsOf (handleSubmit s resp) =
      [⟨.post, createdUrl, .form s.formData⟩]) :=
  ⟨requestsOf_update, requestsOf_submit⟩

/-- C6: no client-side validation can block creation: for every form
state, including the all-empty one, submitting issues exactly the POST
/created request carrying that state. -/
theorem noValidationBlocksCreate :
    (∀ f b resp, requestsOf (handleSubmit ⟨f, b⟩ resp) =
      [⟨.post, createdUrl, .form f⟩]) ∧
    (∀ f b resp, (requestsOf (handleSubmit ⟨f, b⟩ resp)).length = 1) ∧
    (∀ b resp, requestsOf (handleSubmit ⟨emptyFormData, b⟩ resp) =
      [⟨.post, createdUrl, .form emptyFormData⟩]) := by
  refine ⟨fun f b resp => requestsOf_submit ⟨f, b⟩ resp, ?_, ?_⟩
  · intro f b resp
    rw [requestsOf_submit ⟨f, b⟩ resp]
    rfl
  · intro b resp
    exact requestsOf_submit ⟨emptyFormData, b⟩ resp

/-- C8: searching with an empty `patientId` issues no HTTP request, sets
the error message to "Enter a valid patient ID.", and leaves
`singlePatient`, `updateData`, `patients` and `loading` unchanged. -/
theorem emptySearchNoop : ∀ s resp, s.patientId = "" →
    handleSearch s resp = [.setError "Enter a valid patient ID."] ∧
    requestsOf (handleSearch s resp) = [] ∧
    (runPatient s (handleSearch s resp)).singlePatient = s.singlePatient ∧
    (runPatient s (handleSearch s resp)).updateData = s.updateData ∧
    (runPatient s (handleSearch s resp)).patients = s.patients ∧
    (runPatient s (handleSearch s resp)).loading = s.loading ∧
    (runPatient s (handleSearch s resp)).error = "Enter a valid patient ID." := by
  intro s resp h
  unfold handleSearch
  rw [if_pos h]
  exact ⟨rfl, rfl, rfl, rfl, rfl, rfl, rfl⟩

/-- Witness for C8 at the initial state, whose `patientId` is empty. -/
theorem emptySearchNoop_witness :
    handleSearch initialPatientState (.ok samplePatient) =
      [.setError "Enter a valid patient ID."] ∧
    requestsOf (handleSearch initialPatientState (.ok samplePatient)) = [] :=
  ⟨(emptySearchNoop initialPatientState (.ok samplePatient) rfl).1,
   (emptySearchNoop initialPatientState (.ok samplePatient) rfl).2.1⟩

/-- C9: a failed search with a non-empty id clears the displayed patient
before the request is issued (`setSinglePatient none` precedes the
`request` event in the effect list), so afterwards `singlePatient` is null
and only the error message remains: the server's `detail` field when it is
a non-empty string, otherwise "Patient not found."; `updateData` keeps its
previous values. -/
theorem failedSearchClearsPatient : ∀ s e, s.patientId ≠ "" →
    handleSearch s (.error e) =
      [.setError "", .setSinglePatient none, .setLoading true,
       .request ⟨.get, patientUrl s.patientId, .empty⟩,
       .setError (searchErrorMessage e), .setLoading false] ∧
    (runPatient s (handleSearch s (.error e))).singlePatient = none ∧
    (runPatient s (handleSearch s (.error e))).error = searchErrorMessage e ∧
    (runPatient s (handleSearch s (.error e))).updateData = s.updateData ∧
    searchErrorMessage ⟨none⟩ = "Patient not found." := by
  intro s e h
  unfold handleSearch
  rw [if_neg h]
  exact ⟨rfl, rfl, rfl, rfl, rfl⟩

/-- Witness for C9 at a concrete state and error. -/
theorem failedSearchClearsPatient_witness :
    (runPatient sampleSearchState
      (handleSearch sampleSearchState (.error ⟨none⟩))).singlePatient = none ∧
    (runPatient sampleSearchState
      (handleSearch sampleSearchState (.error ⟨none⟩))).error =
        searchErrorMessage ⟨none⟩ :=
  ⟨(failedSearchClearsPatient sampleSearchState ⟨none⟩ (by decide)).2.1,
   (failedSearchClearsPatient sampleSearchState ⟨none⟩ (by decide)).2.2.1⟩

/-- C10: for `fetchSortedPatients`, `handleSearch` and `handleSubmit` the
loading flag is true at every moment a request is in flight (every
`request` event happens while the tracked flag is true, whatever its
initial value) and ends false once the handler completes, on success and
on failure alike. -/
theorem loadingDiscipline :
    (∀ s resp b, loadingAtRequests b (fetchSortedPatients s resp) = true) ∧
    (∀ s resp, (runPatient s (fetchSortedPatients s resp)).loading = false) ∧
    (∀ s resp b, loadingAtRequests b (handleSearch s resp) = true) ∧
    (∀ s resp, s.patientId ≠ "" →
      (runPatient s (handleSearch s resp)).loading = false) ∧
    (∀ s resp b, loadingAtRequests b (handleSubmit s resp) = true) ∧
    (∀ s resp, (runHome s (handleSubmit s resp)).loading = false) := by
  refine ⟨fun s resp b => ?_, fun s resp => ?_, fun s resp b => ?_,
    fun s resp h => ?_, fun s resp b => ?_, fun s resp => ?_⟩
  · cases resp <;> rfl
  · cases resp <;> rfl
  · unfold handleSearch
    split
    · rfl
    · cases resp <;> rfl
  · unfold handleSearch
    rw [if_neg h]
    cases resp <;> rfl
  · cases resp <;> rfl
  · cases resp <;> rfl

/-- Witness for C10 at a concrete search. -/
theorem loadingDiscipline_witness :
    (runPatient sampleSearchState
      (handleSearch sampleSearchState (.ok samplePatient))).loading = false :=
  loadingDiscipline.2.2.2.1 sampleSearchState (.ok samplePatient) (by decide)

/-- C3: the client renders `bmi` and `verdict` exactly as the server sent
them: after a successful search the single-patient card is the response
record rendered field by field, after a successful sort fetch each listed
card is the corresponding response record rendered field by field, and the
rendering functions copy the `bmi` and `verdict` fields verbatim. -/
theorem renderedBmiVerdictFromServer :
    (∀ s p, s.patientId ≠ "" →
      renderSingleView (runPatient s (handleSearch s (.ok p))) =
        some (renderSingle p) ∧
      (renderSingle p).bmi = p.bmi ∧ (renderSingle p).verdict = p.verdict) ∧
    (∀ s l, renderPatients (runPatient s (fetchSortedPatients s (.ok l))) =
      l.map renderCard) ∧
    (∀ p, (renderCard p).bmi = p.bmi ∧ (renderCard p).verdict = p.verdict) := by
  refine ⟨fun s p h => ?_, fun s l => rfl, fun p => ⟨rfl, rfl⟩⟩
  unfold handleSearch
  rw [if_neg h]
  exact ⟨rfl, rfl, rfl⟩

/-- Witness for C3 at a concrete search. -/
theorem renderedBmiVerdictFromServer_witness :
    renderSingleView (runPatient sampleSearchState
      (handleSearch sampleSearchState (.ok samplePatient))) =
      some (renderSingle samplePatient) :=
  (renderedBmiVerdictFromServer.1 sampleSearchState samplePatient (by decide)).1

/-- C5: the sort selects offer exactly the keys height, weight and bmi and
the orders asc and desc; for every offered choice, `fetchSortedPatients`
passes that key and order as the `sort_by` and `order` query parameters of
GET /sort and, on success, replaces the whole `patients` list with the
response data. -/
theorem sortingChoices :
    sortByOptions = ["height", "weight", "bmi"] ∧
    orderOptions = ["asc", "desc"] ∧
    (∀ k o, k ∈ sortByOptions → o ∈ orderOptions →
      ∀ (s : PatientState) (l : List Patient),
      requestsOf (fetchSortedPatients { s with sortBy := k, ord := o } (.ok l)) =
        [⟨.get, sortUrl, .sortQuery k o⟩] ∧
      (runPatient { s with sortBy := k, ord := o }
        (fetchSortedPatients { s with sortBy := k, ord := o } (.ok l))).patients
        = l) := by
  exact ⟨rfl, rfl, fun k o hk ho s l => ⟨rfl, rfl⟩⟩

/-- Witness for C5 at the choice bmi/desc. -/
theorem sortingChoices_witness :
    requestsOf (fetchSortedPatients
      { initialPatientState with sortBy := "bmi", ord := "desc" }
      (.ok [samplePatient])) =
      [⟨.get, sortUrl, .sortQuery "bmi" "desc"⟩] ∧
    (runPatient { initialPatientState with sortBy := "bmi", ord := "desc" }
      (fetchSortedPatients
        { initialPatientState with sortBy := "bmi", ord := "desc" }
        (.ok [samplePatient]))).patients = [samplePatient] :=
  sortingChoices.2.2 "bmi" "desc" (by decide) (by decide)
    initialPatientState [samplePatient]

end Prezzeria
